import Mathlib

/-!
Shallow embedding of the AI interview assistant (FastAPI application under
`app/`): the session data model (`app/dependencies.py`), the interview
routes (`app/api/routes/interview.py`), the question fallback chain
(`app/core/question_bank.py`), the AI-service fallbacks
(`app/services/ai_service.py`) and the report scoring
(`app/core/report_generator.py`).

Conventions of the embedding:
* Timestamps are modelled as natural numbers (seconds since an arbitrary
  epoch); `datetime.now()` becomes an explicit `now : Nat` argument.
* The outcome of the single external AI call made by `submit_response`
  (`ai_service.analyze_response(...)`) is passed in explicitly as an
  `EvalOutcome`: either the call raises, or it returns an analysis dict.
  In the source as written the attribute `analyze_response` does not exist
  on `AIService` (the class defines `analyze_candidate_response`), so the
  actual outcome of that call is always `EvalOutcome.raised`; this fact is
  recorded by `analyze_response_call` below.
* A route handler is a function from the session state (plus inputs) to
  the new session state paired with a `RouteResult`; raising an
  `HTTPException(status, detail)` is modelled by the `RouteResult.httpError`
  constructor, with mutations already performed on the session kept (as in
  Python, where `session_data` is mutated in place before the raise).
-/

namespace App

/-- A question dict as produced by question generation: the routes read the
`question` and (optionally present) `type` keys. -/
structure Question where
  question : String
  qtype : Option String
  deriving Repr, DecidableEq

/-- A response entry as appended by `submit_response`
(`interview.py` lines 169-177). -/
structure ResponseEntry where
  question_number : Nat
  question : String
  question_type : Option String
  response : String
  timestamp : Nat
  deriving Repr, DecidableEq

/-- The per-session storage dict created by `create_session_storage`
(`dependencies.py` lines 48-60) plus the keys written by the interview
routes.  `skills_analysis` abstracts the truthiness of the
`skills_analysis` value (`None` initially, a dict after resume analysis);
`interview_preferences_set` records the `interview_preferences` key written
by `start_interview`. -/
structure Session where
  skills_analysis : Bool
  questions : List Question
  responses : List ResponseEntry
  current_question_index : Nat
  interview_started : Bool
  interview_ended : Bool
  interview_preferences_set : Bool
  start_time : Option Nat
  end_time : Option Nat
  deriving Repr, DecidableEq

/-- Embeds `create_session_storage` (`dependencies.py` lines 48-60): the fresh
session dict for an unknown session id. -/
def create_session_storage : Session :=
  { skills_analysis := false
    questions := []
    responses := []
    current_question_index := 0
    interview_started := false
    interview_ended := false
    interview_preferences_set := false
    start_time := none
    end_time := none }

/-- The global `session_storage` dict, modelled as an association list from
session id to session. -/
abbrev Store := List (String × Session)

/-- Embeds `get_session` (`dependencies.py` lines 67-71): get-or-create.  Returns
the session for `sid` together with the (possibly extended) storage; an
unknown id is silently assigned a fresh `create_session_storage`. -/
def get_session (store : Store) (sid : String) : Session × Store :=
  match store.lookup sid with
  | some s => (s, store)
  | none => (create_session_storage, (sid, create_session_storage) :: store)

/-- The JSON body returned by `get_interview_status`
(`interview.py` lines 259-274). -/
structure StatusResult where
  interview_started : Bool
  interview_ended : Bool
  current_question : Nat
  total_questions : Nat
  responses_given : Nat
  start_time : Option Nat
  deriving Repr, DecidableEq

/-- Embeds `get_interview_status` (`interview.py` lines 259-274); it only reads the
session. -/
def get_interview_status (s : Session) : StatusResult :=
  { interview_started := s.interview_started
    interview_ended := s.interview_ended
    current_question := s.current_question_index + 1
    total_questions := s.questions.length
    responses_given := s.responses.length
    start_time := s.start_time }

/-- The keys of the response-analysis dict that `submit_response` reads
(`interview.py` lines 188-189), plus the `score` set by the fallback. -/
structure Analysis where
  score : Nat
  needs_followup : Bool
  followup_question : Option String
  deriving Repr, DecidableEq

/-- Outcome of the `await ai_service.analyze_response(...)` call site in
`submit_response`: the call either raises or returns an analysis dict. -/
inductive EvalOutcome where
  | raised
  | ok (a : Analysis)
  deriving Repr, DecidableEq

/-- Note `AIService` (`ai_service.py`) defines `analyze_candidate_response` but
no method named `analyze_response`; the attribute access
`ai_service.analyze_response` in `submit_response` (`interview.py` line 181)
therefore raises `AttributeError` on every call.  The actual outcome of the
evaluator call site is thus always `raised`. -/
def analyze_response_call : EvalOutcome :=
  EvalOutcome.raised

/-- Python truthiness of an optional string (`None` and `""` are falsy). -/
def truthyStr : Option String → Bool
  | none => false
  | some t => !(t = "")

/-- The f-string progress field, e.g. `"2/5"`. -/
def progressStr (i n : Nat) : String :=
  Nat.repr i ++ "/" ++ Nat.repr n

/-- The JSON bodies produced by the interview routes.  `httpError` models a
raised `HTTPException`; field lists keep the claim-relevant keys of each
response dict. -/
inductive RouteResult where
  | httpError (status : Nat) (detail : String)
  | followup (question_number : Nat) (followup_question : String) (progress : String)
  | nextQuestion (question_number : Nat) (total_questions : Nat)
      (question : String) (question_type : Option String) (progress : String)
  | interviewComplete (questions_answered : Nat) (duration_minutes : Nat)
      (completion_time : Nat)
  | alreadyEnded
  | proceedQuestion (question_number : Nat) (total_questions : Nat) (question : String)
  | started (total_questions : Nat) (greeting : String)
  deriving Repr, DecidableEq

/-- Embeds `_complete_interview` (`interview.py` lines 232-256).  The session is
updated (`interview_ended := true`, `end_time := now`) before the duration
is computed; if `start_time` is absent the `datetime.fromisoformat` call
raises, which the callers' generic handler turns into a 500, with the
updates kept. -/
def complete_interview (now : Nat) (s : Session) : Session × RouteResult :=
  let s1 := { s with interview_ended := true, end_time := some now }
  match s1.start_time with
  | none => (s1, RouteResult.httpError 500 "Error processing response")
  | some st =>
      (s1, RouteResult.interviewComplete s1.responses.length ((now - st) / 60) now)

/-- Embeds `submit_response` (`interview.py` lines 144-229), with the outcome of
the `ai_service.analyze_response` call passed in as `ev` (see
`analyze_response_call` for the outcome the source actually produces).
Order of operations follows the source: state check, bounds check, append
the response entry, evaluate, then branch on
`analysis.get('needs_followup', False)` and the truthiness of
`analysis.get('followup_question')`.  A raising evaluator call is caught by
the generic `except Exception` handler and re-raised as a 500 — but the
response entry has already been appended at that point. -/
def submit_response (now : Nat) (ev : EvalOutcome) (s : Session) (text : String) :
    Session × RouteResult :=
  if !s.interview_started || s.interview_ended then
    (s, RouteResult.httpError 400 "Interview not active.")
  else if s.questions.length ≤ s.current_question_index then
    (s, RouteResult.httpError 400 "All questions completed.")
  else
    let q := s.questions.getD s.current_question_index { question := "", qtype := none }
    let entry : ResponseEntry :=
      { question_number := s.current_question_index + 1
        question := q.question
        question_type := q.qtype
        response := text
        timestamp := now }
    let s1 := { s with responses := s.responses ++ [entry] }
    match ev with
    | EvalOutcome.raised => (s1, RouteResult.httpError 500 "Error processing response")
    | EvalOutcome.ok a =>
        if a.needs_followup && truthyStr a.followup_question then
          (s1, RouteResult.followup (s1.current_question_index + 1)
                (a.followup_question.getD "")
                (progressStr (s1.current_question_index + 1) s1.questions.length))
        else
          let next := s1.current_question_index + 1
          let s2 := { s1 with current_question_index := next }
          if s2.questions.length ≤ next then
            complete_interview now s2
          else
            (s2, RouteResult.nextQuestion (next + 1) s2.questions.length
                  (s2.questions.getD next { question := "", qtype := none }).question
                  (s2.questions.getD next { question := "", qtype := none }).qtype
                  (progressStr (next + 1) s2.questions.length))

/-- Embeds `proceed_with_interview` (`interview.py` lines 99-141): read-only; an
out-of-range `questions[current_index]` access raises `IndexError`, caught
as a 500. -/
def proceed_with_interview (s : Session) : Session × RouteResult :=
  if !s.interview_started then
    (s, RouteResult.httpError 400 "Interview not started. Please start the interview first.")
  else if s.questions = [] then
    (s, RouteResult.httpError 500 "No questions generated. Please restart the interview.")
  else if s.questions.length ≤ s.current_question_index then
    (s, RouteResult.httpError 500 "Error proceeding with interview")
  else
    (s, RouteResult.proceedQuestion (s.current_question_index + 1) s.questions.length
          (s.questions.getD s.current_question_index { question := "", qtype := none }).question)

/-- Embeds `end_interview_early` (`interview.py` lines 283-307): rejects when no
interview was started, acknowledges an already-ended interview with the
short `{"message": "Interview already ended", ...}` body, and otherwise
delegates to `_complete_interview`. -/
def end_interview_early (now : Nat) (s : Session) : Session × RouteResult :=
  if !s.interview_started then
    (s, RouteResult.httpError 400 "No active interview to end.")
  else if s.interview_ended then
    (s, RouteResult.alreadyEnded)
  else
    complete_interview now s

/-- Embeds `start_interview` (`interview.py` lines 23-96).  After the two state
checks it writes `interview_preferences` into the session and then calls
`engine.generate_questions(...)` — but `InterviewEngine`
(`interview_engine.py`) defines no attribute `generate_questions` (its
question method is `initialize_interview`), so the call raises
`AttributeError`, caught by the generic handler as a 500.  The success
branch (lines 70-88) is therefore unreachable. -/
def start_interview (s : Session) : Session × RouteResult :=
  if !s.skills_analysis then
    (s, RouteResult.httpError 400
        "Please upload and analyze your resume before starting the interview.")
  else if s.interview_started then
    (s, RouteResult.httpError 400 "Interview already started for this session.")
  else
    let s1 := { s with interview_preferences_set := true }
    (s1, RouteResult.httpError 500 "Error starting interview")

/-- One call to an interview endpoint, for stating invariants over call
sequences; `submit` carries the evaluator outcome of that call. -/
inductive Op where
  | proceed
  | submit (now : Nat) (ev : EvalOutcome) (text : String)
  | endNow (now : Nat)
  deriving Repr

/-- The session state after one endpoint call. -/
def step (op : Op) (s : Session) : Session :=
  match op with
  | Op.proceed => (proceed_with_interview s).1
  | Op.submit now ev text => (submit_response now ev s text).1
  | Op.endNow now => (end_interview_early now s).1

/-- The session state after a sequence of endpoint calls. -/
def runOps (ops : List Op) (s : Session) : Session :=
  ops.foldl (fun t op => step op t) s

/-- Python `str.strip()`: drop leading and trailing whitespace. -/
def strip (s : String) : String :=
  String.mk
    (((s.data.dropWhile Char.isWhitespace).reverse.dropWhile Char.isWhitespace).reverse)

/-- Python `len(response.split())`: number of maximal nonempty
whitespace-separated chunks. -/
def wordCount (s : String) : Nat :=
  ((s.split fun c => c.isWhitespace).filter fun w => w ≠ "").length

/-- Embeds `AIService._fallback_response_analysis` (`ai_service.py` lines 660-669):
the deterministic evaluation used when the AI analysis call fails inside
`analyze_candidate_response`. -/
def fallback_response_analysis (response : String) : Analysis :=
  { score := if 20 < wordCount response then 6 else 4
    needs_followup := false
    followup_question := none }

/-- Embeds `QuestionBank._emergency_fallback_questions`
(`question_bank.py` lines 72-99): the hardcoded last-resort question set. -/
def emergency_fallback_questions : List Question :=
  [ { question := "Tell me about yourself and your background.", qtype := some "general" }
  , { question := "What interests you most about this role?", qtype := some "general" }
  , { question := "Describe a challenging project you worked on.", qtype := some "behavioral" } ]

/-- Embeds `QuestionBank.generate_personalized_questions`
(`question_bank.py` lines 11-37), with the outcomes of the two AI calls
(`generate_interview_questions`, then `generate_basic_interview_questions`)
passed in explicitly: on primary failure it tries the basic set, and on
failure of both it returns the hardcoded emergency questions. -/
def generate_personalized_questions
    (primary basic : Except String (List Question)) : List Question :=
  match primary with
  | Except.ok qs => qs
  | Except.error _ =>
      match basic with
      | Except.ok qs => qs
      | Except.error _ => emergency_fallback_questions

/-- The greeting returned by `AIService.generate_interview_greeting` when
the AI call fails (`ai_service.py` line 232): a fixed f-string around
`candidate_name or 'there'`. -/
def greeting_fallback (candidate_name : Option String) : String :=
  "Hello " ++
    (match candidate_name with
      | none => "there"
      | some n => if n = "" then "there" else n) ++
    "! I\u0027ve reviewed your resume and I\u0027m excited to learn more about your experience. Are you ready to begin the interview?"

/-- The dict returned by `ReportGenerator._calculate_overall_score`
(`report_generator.py` lines 214-223). -/
structure OverallScore where
  numerical_score : ℚ
  grade : String
  performance_level : String
  technical : ℚ
  communication : ℚ
  problem_solving : ℚ
  deriving Repr, DecidableEq

/-- Python `round(x, 1)`.  Python rounds half to even while `round` here
rounds half up; the two agree whenever `10 * q` is not a half-integer, and
every value reached below is an exact multiple of `1/10`. -/
def roundTo1 (q : ℚ) : ℚ :=
  ((round (10 * q) : ℤ) : ℚ) / 10

/-- Embeds `ReportGenerator._calculate_overall_score`
(`report_generator.py` lines 178-223): weighted overall score 0.4/0.3/0.3
and the fixed grade thresholds. -/
def calculate_overall_score (t c p : ℚ) : OverallScore :=
  let overall : ℚ := t * 0.4 + c * 0.3 + p * 0.3
  let gl : String × String :=
    if 8.5 ≤ overall then ("A", "Excellent")
    else if 7.5 ≤ overall then ("B", "Good")
    else if 6.5 ≤ overall then ("C", "Satisfactory")
    else if 5.5 ≤ overall then ("D", "Below Average")
    else ("F", "Poor")
  { numerical_score := roundTo1 overall
    grade := gl.1
    performance_level := gl.2
    technical := t
    communication := c
    problem_solving := p }

/-- The dict returned by `AIService._fallback_interview_analysis`
(`ai_service.py` lines 671-683): the neutral holistic analysis used when
`analyze_complete_interview` fails. -/
structure InterviewAnalysis where
  overall_performance : String
  overall_score : Nat
  technical_score : Nat
  communication_score : Nat
  problem_solving_score : Nat
  key_strengths : List String
  improvement_areas : List String
  hiring_recommendation : String
  deriving Repr, DecidableEq

/-- Embeds `AIService._fallback_interview_analysis` (`ai_service.py` lines 671-683). -/
def fallback_interview_analysis : InterviewAnalysis :=
  { overall_performance := "satisfactory"
    overall_score := 6
    technical_score := 6
    communication_score := 6
    problem_solving_score := 6
    key_strengths := ["Completed the interview", "Engaged with questions"]
    improvement_areas := ["Could provide more detailed examples"]
    hiring_recommendation := "maybe" }

/-- The assembled report object that `create_report` is meant to return. -/
structure Report where
  report_id : String
  deriving Repr, DecidableEq

/-- Embeds `ReportGenerator.create_report` (`report_generator.py` lines 35-57).
The report dict literal is evaluated field by field.  When the session's
`skills_analysis` is `None`, `_generate_candidate_section` calls
`.get` on a non-dict and raises.  Otherwise the next field evaluates
`self._generate_summary_summary(...)` — but `ReportGenerator` defines no
such attribute (its method is `_generate_interview_summary`), so an
`AttributeError` is raised; the handler re-raises it as
`Exception("Error creating report: ...")`.  Every call therefore fails,
regardless of the `ai_analysis` argument. -/
def create_report (s : Session) (ai_analysis : InterviewAnalysis) :
    Except String Report :=
  if s.skills_analysis = false then
    Except.error "Error creating report: NoneType object has no attribute get"
  else
    Except.error
      "Error creating report: ReportGenerator object has no attribute _generate_summary_summary"

/-- The per-question analysis entry built by
`ReportGenerator._generate_question_analysis`
(`report_generator.py` lines 104-123).  The source's field-name slips are
reproduced: `question` is filled from `response.get('response','')` and
`question_type` from the nonexistent key `response_type` (so always the
default `general`). -/
structure QAEntry where
  question_number : Nat
  question : String
  question_type : String
  response_summary : String
  score : Nat
  feedback : String
  deriving Repr, DecidableEq

/-- The per-response analysis values read from
`ai_analysis['response_analysis']` entries, with the route's defaults. -/
structure RespAnalysis where
  score : Nat
  feedback : String
  deriving Repr, DecidableEq

/-- The truncation `response[:200] + "..." if len(response) > 200 else response`. -/
def summarize (r : String) : String :=
  if 200 < r.length then (r.take 200).push '.' |>.push '.' |>.push '.' else r

/-- Embeds `ReportGenerator._generate_question_analysis`
(`report_generator.py` lines 104-123).  The `for` loop body ends with
`return question_analysis` *inside* the loop, so the function returns after
the first iteration with a single-entry list; for an empty `responses`
list the loop body never runs and the function falls off the end,
returning `None`. -/
def generate_question_analysis (responses : List ResponseEntry)
    (response_analysis : List RespAnalysis) : Option (List QAEntry) :=
  match responses with
  | [] => none
  | r :: _ =>
      let analysis := response_analysis.getD 0 { score := 7, feedback := "Good response" }
      some [ { question_number := r.question_number
               question := r.response
               question_type := "general"
               response_summary := summarize r.response
               score := analysis.score
               feedback := analysis.feedback } ]

/-! Concrete fixtures used to evaluate the embedded operations. -/

/-- A sample generated question. -/
def q0 : Question :=
  { question := "Tell me about yourself.", qtype := some "general" }

/-- A session in the middle of an interview: analysis done, started, not
ended, one question pending, cursor at 0. -/
def inProgressSession : Session :=
  { skills_analysis := true
    questions := [q0]
    responses := []
    current_question_index := 0
    interview_started := true
    interview_ended := false
    interview_preferences_set := true
    start_time := some 0
    end_time := none }

/-- An evaluator result that requests a follow-up and carries one. -/
def followupAnalysis : Analysis :=
  { score := 7, needs_followup := true,
    followup_question := some "Can you elaborate on that?" }

/-- A session with resume analysis done but no interview started. -/
def readySession : Session :=
  { create_session_storage with skills_analysis := true }

/-- The session after a first successful early-end call on
`inProgressSession` at time 60. -/
def endedSession : Session :=
  (end_interview_early 60 inProgressSession).1

/-- Two sample stored response entries. -/
def respA : ResponseEntry :=
  { question_number := 1, question := "Q1", question_type := some "general",
    response := "Answer one", timestamp := 10 }

/-- Second sample stored response entry. -/
def respB : ResponseEntry :=
  { question_number := 2, question := "Q2", question_type := some "general",
    response := "Answer two", timestamp := 20 }

/-! Theorems settling the specification claims. -/

/-- Per-call facts behind the C3 invariant: one endpoint call never
decreases the cursor, never removes responses, and advances the cursor by
at most the number of responses it appends. -/
theorem step_cursor_facts (op : Op) (s : Session) :
    s.current_question_index ≤ (step op s).current_question_index ∧
    s.responses.length ≤ (step op s).responses.length ∧
    (step op s).current_question_index - s.current_question_index
      ≤ (step op s).responses.length - s.responses.length := by
  cases op with
  | proceed =>
      simp only [step, proceed_with_interview]
      split_ifs <;> simp
  | submit now ev text =>
      cases ev <;>
        simp only [step, submit_response, complete_interview] <;>
        split_ifs <;>
        (try split) <;>
        simp_all <;>
        omega
  | endNow now =>
      simp only [step, end_interview_early, complete_interview]
      split_ifs <;> simp_all <;> split <;> simp

/-- C3 (counterexample): `len(responses) <= cursor` fails on the code: a
single `submit_response` call on a fresh in-progress session appends the
response entry *before* the cursor is advanced, and the (actually raising)
evaluator call leaves the cursor at 0 with one stored response — the same
happens on the follow-up path. -/
theorem responses_exceed_cursor :
    ¬ ((submit_response 0 analyze_response_call inProgressSession
          "Some answer").1.responses.length
        ≤ (submit_response 0 analyze_response_call inProgressSession
            "Some answer").1.current_question_index) := by
  decide

/-- C3 (amended): across every sequence of endpoint calls (proceed, submit
with any evaluator outcome, early end), the cursor
`current_question_index` is monotonically non-decreasing, and the reversed
inequality `cursor <= len(responses)` is the invariant the code maintains:
it holds after any call sequence provided it held at the start (the cursor
only advances in a call that has just appended a response). -/
theorem cursor_monotone_and_bounded (ops : List Op) (s : Session) :
    s.current_question_index ≤ (runOps ops s).current_question_index ∧
    (s.current_question_index ≤ s.responses.length →
      (runOps ops s).current_question_index ≤ (runOps ops s).responses.length) := by
  induction ops generalizing s with
  | nil => exact ⟨Nat.le_refl _, fun h => h⟩
  | cons op ops ih =>
      have h1 := step_cursor_facts op s
      have h2 := ih (step op s)
      simp only [runOps, List.foldl_cons] at h2 ⊢
      exact ⟨Nat.le_trans h1.1 h2.1, fun hb => h2.2 (by omega)⟩

/-- C3 (witness for the amended theorem): a concrete three-call sequence
from the fresh in-progress session keeps `cursor <= len(responses)`. -/
theorem cursor_monotone_and_bounded_witness :
    (runOps [Op.proceed,
             Op.submit 0 (EvalOutcome.ok followupAnalysis) "First answer",
             Op.endNow 60] inProgressSession).current_question_index
      ≤ (runOps [Op.proceed,
                 Op.submit 0 (EvalOutcome.ok followupAnalysis) "First answer",
                 Op.endNow 60] inProgressSession).responses.length :=
  (cursor_monotone_and_bounded
    [Op.proceed, Op.submit 0 (EvalOutcome.ok followupAnalysis) "First answer",
     Op.endNow 60] inProgressSession).2 (by decide)

/-- C1 (counterexample): after a first `submit_response` call whose
evaluation requests a follow-up, a second call on the same original
question whose evaluation again requests a follow-up returns a *second*
follow-up for that question (question number 1 again): the claimed
at-most-one-follow-up cap does not hold on the code, which keeps no record
of prior follow-ups. -/
theorem submit_second_followup_returned :
    (submit_response 0 (EvalOutcome.ok followupAnalysis) inProgressSession
        "First answer").2
      = RouteResult.followup 1 "Can you elaborate on that?" "1/1" ∧
    (submit_response 1 (EvalOutcome.ok followupAnalysis)
        (submit_response 0 (EvalOutcome.ok followupAnalysis) inProgressSession
          "First answer").1
        "Second answer").2
      = RouteResult.followup 1 "Can you elaborate on that?" "1/1" := by
  exact ⟨rfl, rfl⟩

/-- C1 (amended): `submit_response` never inserts a follow-up into the
question queue and keeps no per-question follow-up record: whenever the
session is in progress, the cursor is in range, and the evaluation reports
`needs_followup` with a (truthy) follow-up question, the call returns a
follow-up for the current question and leaves the queue, the cursor and
the state flags unchanged (appending only the response entry) — so nothing
prevents a subsequent qualifying call from returning another follow-up for
the same original question. -/
theorem submit_followup_not_deduplicated
    (now : Nat) (a : Analysis) (s : Session) (text : String)
    (hstart : s.interview_started = true) (hend : s.interview_ended = false)
    (hidx : s.current_question_index < s.questions.length)
    (hnf : a.needs_followup = true) (hfq : truthyStr a.followup_question = true) :
    (submit_response now (EvalOutcome.ok a) s text).2
      = RouteResult.followup (s.current_question_index + 1)
          (a.followup_question.getD "")
          (progressStr (s.current_question_index + 1) s.questions.length) ∧
    (submit_response now (EvalOutcome.ok a) s text).1.questions = s.questions ∧
    (submit_response now (EvalOutcome.ok a) s text).1.current_question_index
      = s.current_question_index ∧
    (submit_response now (EvalOutcome.ok a) s text).1.interview_started = true ∧
    (submit_response now (EvalOutcome.ok a) s text).1.interview_ended = false ∧
    (submit_response now (EvalOutcome.ok a) s text).1.responses.length
      = s.responses.length + 1 := by
  have hlt : ¬ (s.questions.length ≤ s.current_question_index) := Nat.not_le.mpr hidx
  simp [submit_response, hstart, hend, hnf, hfq, hlt]

/-- C1 (witness for the amended theorem): the follow-up path at a concrete
in-progress session leaves the cursor unchanged. -/
theorem submit_followup_not_deduplicated_witness :
    (submit_response 0 (EvalOutcome.ok followupAnalysis) inProgressSession
        "First answer").1.current_question_index
      = inProgressSession.current_question_index :=
  (submit_followup_not_deduplicated 0 followupAnalysis inProgressSession
    "First answer" rfl rfl (by decide) rfl (by decide)).2.2.1

/-- C2: the fallback evaluation rule of
`AIService._fallback_response_analysis` does follow the spec (score 6 for
responses of more than 20 words, else 4, `needs_followup` false) — but
`submit_response` never reaches it: the route's evaluator call site
resolves the nonexistent attribute `AIService.analyze_response` and raises
on every call (`analyze_response_call = raised`), so a call on an
in-progress session ends in an HTTP 500 after the response entry has
already been appended, instead of returning a next-step result. -/
theorem submit_evaluator_failure_behavior :
    (∀ r : String,
        (fallback_response_analysis r).score
          = (if 20 < wordCount r then 6 else 4) ∧
        (fallback_response_analysis r).needs_followup = false) ∧
    analyze_response_call = EvalOutcome.raised ∧
    (submit_response 0 analyze_response_call inProgressSession
        "I think the project went well").2
      = RouteResult.httpError 500 "Error processing response" ∧
    (submit_response 0 analyze_response_call inProgressSession
        "I think the project went well").1.responses.length = 1 := by
  exact ⟨fun r => ⟨rfl, rfl⟩, rfl, rfl, rfl⟩

/-- C4: a `submit_response` call on a session that is not in progress (not
started, or already ended) is rejected with the 400 invalid-state error
and leaves the session unchanged — in particular for any submitted text
that is empty after trimming, no response entry is appended and the cursor
does not move. -/
theorem submit_rejects_inactive
    (now : Nat) (ev : EvalOutcome) (s : Session) (text : String)
    (hstate : s.interview_started = false ∨ s.interview_ended = true)
    (htext : strip text = "") :
    submit_response now ev s text
      = (s, RouteResult.httpError 400 "Interview not active.") := by
  rcases hstate with h | h <;> simp [submit_response, h]

/-- C4 (witness): a never-started session rejects an empty submission and
is returned unchanged. -/
theorem submit_rejects_inactive_witness :
    submit_response 0 analyze_response_call create_session_storage ""
      = (create_session_storage, RouteResult.httpError 400 "Interview not active.") :=
  submit_rejects_inactive 0 analyze_response_call create_session_storage ""
    (Or.inl rfl) (by decide)

/-- C5 (counterexample): the second `end_interview_early` call on a
completed session does not return the first call's completion summary: the
first call returns the `interview_complete` summary and the second returns
only the short already-ended acknowledgment. -/
theorem end_interview_second_call_differs :
    (end_interview_early 120 endedSession).2
      ≠ (end_interview_early 60 inProgressSession).2 ∧
    (end_interview_early 120 endedSession).2 = RouteResult.alreadyEnded ∧
    (end_interview_early 60 inProgressSession).2
      = RouteResult.interviewComplete 0 1 60 := by
  exact ⟨by decide, rfl, rfl⟩

/-- C5 (amended): `end_interview_early` on an already-completed session is
a state no-op — the session, in particular `end_time`, is unchanged — and
it returns the "Interview already ended" acknowledgment rather than the
original completion summary. -/
theorem end_interview_idempotent_on_completed
    (now : Nat) (s : Session)
    (hstart : s.interview_started = true) (hend : s.interview_ended = true) :
    end_interview_early now s = (s, RouteResult.alreadyEnded) := by
  simp [end_interview_early, hstart, hend]

/-- C5 (witness): a repeated early-end call on the concrete completed
session is a no-op. -/
theorem end_interview_idempotent_on_completed_witness :
    end_interview_early 120 endedSession = (endedSession, RouteResult.alreadyEnded) :=
  end_interview_idempotent_on_completed 120 endedSession (by decide) (by decide)

/-- C6: the question-source fallback chain itself is as specified — when
both AI question calls fail, `generate_personalized_questions` returns the
hardcoded emergency set of exactly 3 questions, and the greeting fallback
is the fixed generic string — but `start_interview` never reaches it: the
route calls `engine.generate_questions`, an attribute `InterviewEngine`
does not define, so every call on a ready session raises an HTTP 500 and
the session never transitions to a started (Planned) interview. -/
theorem question_fallback_and_start_failure :
    (∀ e1 e2 : String,
        generate_personalized_questions (Except.error e1) (Except.error e2)
          = emergency_fallback_questions) ∧
    emergency_fallback_questions.length = 3 ∧
    greeting_fallback (some "Alex")
      = "Hello Alex! I\u0027ve reviewed your resume and I\u0027m excited to learn more about your experience. Are you ready to begin the interview?" ∧
    (start_interview readySession).2
      = RouteResult.httpError 500 "Error starting interview" ∧
    (start_interview readySession).1.interview_started = false := by
  exact ⟨fun e1 e2 => rfl, rfl, rfl, rfl, rfl⟩

/-- Rounding to one decimal is the identity on exact multiples of `1/10`,
which is all `_calculate_overall_score` ever feeds it for integer inputs. -/
theorem roundTo1_int_div_ten (n : ℤ) : roundTo1 ((n : ℚ) / 10) = (n : ℚ) / 10 := by
  unfold roundTo1
  rw [show (10:ℚ) * ((n:ℚ)/10) = (n:ℚ) by ring, round_intCast]

/-- C7 (counterexample): at technical=8, communication=6,
problem_solving=7 the weighted overall score is 7.1, but 7.1 is below the
7.5 grade-B threshold, so `_calculate_overall_score` assigns grade C /
"Satisfactory", not the claimed B / "Good". -/
theorem overall_score_example_grade :
    (calculate_overall_score 8 6 7).numerical_score = 7.1 ∧
    (calculate_overall_score 8 6 7).grade = "C" ∧
    (calculate_overall_score 8 6 7).performance_level = "Satisfactory" ∧
    (calculate_overall_score 8 6 7).grade ≠ "B" := by
  refine ⟨?_, ?_, ?_, ?_⟩
  · simp only [calculate_overall_score]
    rw [show (8 * 0.4 + 6 * 0.3 + 7 * 0.3 : ℚ) = ((71:ℤ):ℚ)/10 by norm_num,
      roundTo1_int_div_ten]
    norm_num
  · simp only [calculate_overall_score,
      apply_ite (Prod.fst (α := String) (β := String))]
    rw [if_neg (by norm_num), if_neg (by norm_num), if_pos (by norm_num)]
  · simp only [calculate_overall_score,
      apply_ite (Prod.snd (α := String) (β := String))]
    rw [if_neg (by norm_num), if_neg (by norm_num), if_pos (by norm_num)]
  · simp only [calculate_overall_score,
      apply_ite (Prod.fst (α := String) (β := String))]
    rw [if_neg (by norm_num), if_neg (by norm_num), if_pos (by norm_num)]
    decide

/-- C7 (amended): for all integer dimension scores, the overall score
equals `0.4*technical + 0.3*communication + 0.3*problem_solving` exactly
(the `round(..., 1)` is the identity there) and the grade and performance
level follow the fixed thresholds ≥8.5 → A/Excellent, ≥7.5 → B/Good,
≥6.5 → C/Satisfactory, ≥5.5 → D/Below Average, else F/Poor; in particular
technical=8, communication=6, problem_solving=7 yields 7.1 with grade C /
"Satisfactory" (not B). -/
theorem overall_score_formula (t c p : ℤ) :
    (calculate_overall_score t c p).numerical_score
      = 0.4 * (t:ℚ) + 0.3 * (c:ℚ) + 0.3 * (p:ℚ) ∧
    (calculate_overall_score t c p).grade
      = (if (8.5 : ℚ) ≤ 0.4 * t + 0.3 * c + 0.3 * p then "A"
         else if (7.5 : ℚ) ≤ 0.4 * t + 0.3 * c + 0.3 * p then "B"
         else if (6.5 : ℚ) ≤ 0.4 * t + 0.3 * c + 0.3 * p then "C"
         else if (5.5 : ℚ) ≤ 0.4 * t + 0.3 * c + 0.3 * p then "D"
         else "F") ∧
    (calculate_overall_score t c p).performance_level
      = (if (8.5 : ℚ) ≤ 0.4 * t + 0.3 * c + 0.3 * p then "Excellent"
         else if (7.5 : ℚ) ≤ 0.4 * t + 0.3 * c + 0.3 * p then "Good"
         else if (6.5 : ℚ) ≤ 0.4 * t + 0.3 * c + 0.3 * p then "Satisfactory"
         else if (5.5 : ℚ) ≤ 0.4 * t + 0.3 * c + 0.3 * p then "Below Average"
         else "Poor") ∧
    (calculate_overall_score 8 6 7).numerical_score = 7.1 ∧
    (calculate_overall_score 8 6 7).grade = "C" ∧
    (calculate_overall_score 8 6 7).performance_level = "Satisfactory" := by
  have hcomm : ((t:ℚ) * 0.4 + (c:ℚ) * 0.3 + (p:ℚ) * 0.3)
      = 0.4 * (t:ℚ) + 0.3 * (c:ℚ) + 0.3 * (p:ℚ) := by ring
  refine ⟨?_, ?_, ?_, ?_, ?_, ?_⟩
  · simp only [calculate_overall_score]
    rw [show ((t:ℚ) * 0.4 + (c:ℚ) * 0.3 + (p:ℚ) * 0.3)
          = ((4*t+3*c+3*p : ℤ) : ℚ)/10 by push_cast; ring,
      roundTo1_int_div_ten]
    push_cast; ring
  · simp only [calculate_overall_score, hcomm,
      apply_ite (Prod.fst (α := String) (β := String))]
  · simp only [calculate_overall_score, hcomm,
      apply_ite (Prod.snd (α := String) (β := String))]
  · simp only [calculate_overall_score]
    rw [show (8 * 0.4 + 6 * 0.3 + 7 * 0.3 : ℚ) = ((71:ℤ):ℚ)/10 by norm_num,
      roundTo1_int_div_ten]
    norm_num
  · simp only [calculate_overall_score,
      apply_ite (Prod.fst (α := String) (β := String))]
    rw [if_neg (by norm_num), if_neg (by norm_num), if_pos (by norm_num)]
  · simp only [calculate_overall_score,
      apply_ite (Prod.snd (α := String) (β := String))]
    rw [if_neg (by norm_num), if_neg (by norm_num), if_pos (by norm_num)]

/-- C8: `create_report` fails on every input — the report dict evaluates
`self._generate_summary_summary(...)`, an attribute that does not exist on
`ReportGenerator`, so the pipeline raises instead of substituting the
fallback — even though `_fallback_interview_analysis` does provide the
neutral 6/10 default scores the spec describes. -/
theorem create_report_always_fails :
    (∀ (s : Session) (a : InterviewAnalysis),
        ∃ msg, create_report s a = Except.error msg) ∧
    fallback_interview_analysis.technical_score = 6 ∧
    fallback_interview_analysis.communication_score = 6 ∧
    fallback_interview_analysis.problem_solving_score = 6 ∧
    fallback_interview_analysis.overall_score = 6 ∧
    create_report endedSession fallback_interview_analysis
      = Except.error
          "Error creating report: ReportGenerator object has no attribute _generate_summary_summary" := by
  refine ⟨fun s a => ?_, rfl, rfl, rfl, rfl, rfl⟩
  unfold create_report
  split <;> exact ⟨_, rfl⟩

/-- C9: `_generate_question_analysis` returns a single-entry list for
every nonempty response list (the `return` sits inside the `for` loop, so
the loop stops after its first iteration), instead of one entry per
response record; for an empty list it falls through and returns `None`. -/
theorem question_analysis_single_entry :
    (∀ (r : ResponseEntry) (rest : List ResponseEntry) (ra : List RespAnalysis),
        (generate_question_analysis (r :: rest) ra).map List.length = some 1) ∧
    generate_question_analysis [] [] = none ∧
    (generate_question_analysis [respA, respB] []).map List.length = some 1 := by
  exact ⟨fun r rest ra => rfl, rfl, rfl⟩

/-- C10: `get_session` on an unknown session id never fails: it silently
creates and returns the fresh default session (interview not started nor
ended, cursor 0, empty question and response lists), stores it under the
id, and a status query on that session reports a not-started interview. -/
theorem get_session_creates_default
    (store : Store) (sid : String) (h : store.lookup sid = none) :
    (get_session store sid).1 = create_session_storage ∧
    (get_session store sid).1.interview_started = false ∧
    (get_session store sid).1.interview_ended = false ∧
    (get_session store sid).1.current_question_index = 0 ∧
    (get_session store sid).1.questions = [] ∧
    (get_session store sid).1.responses = [] ∧
    (get_session store sid).2.lookup sid = some create_session_storage ∧
    get_interview_status (get_session store sid).1
      = { interview_started := false, interview_ended := false,
          current_question := 1, total_questions := 0, responses_given := 0,
          start_time := none } := by
  unfold get_session
  rw [h]
  simp [get_interview_status, create_session_storage, List.lookup]

/-- C10 (witness): a status query for a never-created session id reports a
not-started interview. -/
theorem get_session_creates_default_witness :
    get_interview_status (get_session [] "unknown-id").1
      = { interview_started := false, interview_ended := false,
          current_question := 1, total_questions := 0, responses_given := 0,
          start_time := none } :=
  (get_session_creates_default [] "unknown-id" rfl).2.2.2.2.2.2.2

end App

